import Mathlib

/-!
Verification of the conversational-memory subsystem and conversation pipeline of the
AI-Interactive-smart-doll backend.

The embedding models, from the source:
- `app/memory.py`: the `MemoryManager` class (collection/index setup, `search_memory`,
  `save_to_memory`) over a state model of the external Qdrant vector store, and the
  module-level `memory_manager = None` binding;
- `app/services.py`: `AIServiceError` classification, `transcribe_audio`,
  `get_gemini_response` (recall, prompt construction, generation, persistence, and the
  two except-clauses that re-raise everything as `AIServiceError`);
- `app/routers/conversation.py`: the `talk` endpoint (token check, pipeline, the
  `AIServiceError`-to-503 and blanket-Exception-to-500 handlers).

External vendor capabilities (Whisper transcription, OpenAI embeddings, Gemini
generation, speech synthesis) are interfaces, not code of this repository; they are
modelled as an `Env` of oracles whose outcomes (success value or raised exception) are
parameters. The Qdrant store is likewise external; it is modelled as explicit state
with the documented semantics of the client calls the source makes: `get_collections`,
`create_collection`, `create_payload_index`, `upsert`, and `search` (filtered points
ranked by descending similarity, truncated to `limit`). Similarity scores are modelled
as integer-valued dot products standing in for cosine similarity of the stored unit
vectors; only the ranking order matters to the source code.

Python exceptions become an explicit error type threaded as `Except`; the Qdrant state
is threaded explicitly and is returned unchanged on the error paths, which mirrors that
a raised exception aborts the remaining statements of the Python function.
-/

namespace Doll

/-- The exception classes the pipeline distinguishes: `AIServiceError` (defined in
`app/services.py`), `google_exceptions.GoogleAPICallError`, and every other Python
exception (for example `AttributeError`). -/
inductive PyExc where
  | aiService (msg : String)
  | googleAPICall (msg : String)
  | other (msg : String)
deriving DecidableEq, Repr

/-- The string rendering of an exception, as used by the f-strings in the source. -/
def PyExc.message : PyExc → String
  | .aiService m => m
  | .googleAPICall m => m
  | .other m => m

/-- Embedding vectors; the external embedding provider is abstract, so vectors are
opaque integer lists and similarity is their dot product (see the file comment). -/
abbrev Vec := List Int

/-- Raw audio bytes. -/
abbrev Bytes := List Nat

/-- Dot-product similarity between a query vector and a stored vector. -/
def dotSim : Vec → Vec → Int
  | [], _ => 0
  | _, [] => 0
  | a :: as, b :: bs => a * b + dotSim as bs

/-- One stored point of the Qdrant collection: id, vector and the payload fields that
`save_to_memory` writes (`child_id`, `user_text`, `ai_text`, `created_at`). -/
structure QPoint where
  id : String
  vector : Vec
  child_id : String
  user_text : String
  ai_text : String
  created_at : String
deriving DecidableEq, Repr

/-- The distance metric of a collection, from `models.Distance`. -/
inductive Distance where
  | cosine
  | euclid
  | dot
deriving DecidableEq, Repr

/-- Configuration of one Qdrant collection as `create_collection` fixes it. -/
structure QCollectionInfo where
  name : String
  dim : Nat
  metric : Distance
deriving DecidableEq, Repr

/-- The state of the external Qdrant server: existing collections, existing payload
indexes (collection name, field name), and the stored points tagged with the
collection that holds them. -/
structure QdrantDB where
  collections : List QCollectionInfo
  indexes : List (String × String)
  points : List (String × QPoint)
deriving DecidableEq, Repr

/-- `client.get_collections()` as read by `ensure_collection_exists`: the names of the
existing collections. -/
def QdrantDB.collectionNames (db : QdrantDB) : List String :=
  db.collections.map (fun c => c.name)

/-- `client.create_collection`: creates the named collection with the given vector
dimension and metric; errors if a collection of that name already exists. -/
def QdrantDB.create_collection (db : QdrantDB) (name : String) (dim : Nat)
    (metric : Distance) : Except PyExc QdrantDB :=
  if name ∈ db.collectionNames then
    .error (.other ("Collection " ++ name ++ " already exists"))
  else
    .ok { db with collections := db.collections ++ [⟨name, dim, metric⟩] }

/-- `client.create_payload_index`: registers a keyword index on a payload field;
re-creating an identical index is accepted and leaves the state unchanged. -/
def QdrantDB.create_payload_index (db : QdrantDB) (cn field : String) :
    Except PyExc QdrantDB :=
  if (cn, field) ∈ db.indexes then .ok db
  else .ok { db with indexes := db.indexes ++ [(cn, field)] }

/-- `client.upsert` with one point: a point with the same id in the same collection is
replaced, otherwise the point is added. -/
def QdrantDB.upsert (db : QdrantDB) (cn : String) (p : QPoint) : QdrantDB :=
  { db with
    points := (db.points.filter (fun pr => !(pr.1 == cn && pr.2.id == p.id))) ++ [(cn, p)] }

/-- Ranking relation of a Qdrant similarity search: a point ranks before another when
its similarity to the query vector is at least as large. -/
def rankRel (qv : Vec) (a b : QPoint) : Prop :=
  dotSim qv b.vector ≤ dotSim qv a.vector

instance (qv : Vec) : DecidableRel (rankRel qv) :=
  fun a b => inferInstanceAs (Decidable (dotSim qv b.vector ≤ dotSim qv a.vector))

instance (qv : Vec) : IsTotal QPoint (rankRel qv) :=
  ⟨fun a b => (le_total (dotSim qv a.vector) (dotSim qv b.vector)).symm⟩

instance (qv : Vec) : IsTrans QPoint (rankRel qv) :=
  ⟨fun _ _ _ h1 h2 => le_trans h2 h1⟩

/-- `client.search` as called by `search_memory`: the points of the collection that
pass the mandatory `must`-filter on `child_id` equality, ranked by descending
similarity to the query vector, truncated to `limit` hits. -/
def QdrantDB.search (db : QdrantDB) (cn : String) (qv : Vec) (child : String)
    (limit : Nat) : List QPoint :=
  (List.insertionSort (rankRel qv)
    ((db.points.filter (fun pr => pr.1 == cn && pr.2.child_id == child)).map Prod.snd)).take
    limit

/-- Outcomes of the external capabilities for one request: what each vendor call
returns or raises when the pipeline invokes it, plus the values the fresh-uuid and
current-time calls produce during the request. -/
structure Env where
  transcribe : Bytes → Except PyExc String
  embed : String → Except PyExc Vec
  generate : String → Except PyExc String
  synthesize : String → Except PyExc Bytes
  uuid : String
  now : String

/-- The `MemoryManager` instance state: its configured collection name
(`"toy_conversations_v3"` in `__init__`). -/
structure MemoryManager where
  collection_name : String
deriving DecidableEq, Repr

/-- The collection name fixed by `MemoryManager.__init__`. -/
def theCollection : String := "toy_conversations_v3"

/-- `MemoryManager.ensure_collection_exists`: reads the collection list and, only when
the configured collection is absent, creates it (size 1536, cosine distance) and then
creates the keyword payload index on `child_id`. Errors from the client propagate
(the except-clause only logs and re-raises). -/
def MemoryManager.ensure_collection_exists (m : MemoryManager) (db : QdrantDB) :
    Except PyExc QdrantDB :=
  if m.collection_name ∈ db.collectionNames then .ok db
  else
    match db.create_collection m.collection_name 1536 .cosine with
    | .error e => .error e
    | .ok db1 =>
      match db1.create_payload_index m.collection_name "child_id" with
      | .error e => .error e
      | .ok db2 => .ok db2

/-- The line `search_memory` formats for one retrieved hit. -/
def fmtHit (p : QPoint) : String :=
  "Child previously said: \x27" ++ p.user_text ++ "\x27 and AI responded: \x27" ++
    p.ai_text ++ "\x27"

/-- `MemoryManager.search_memory`: embeds the query text, searches the collection with
the mandatory equality filter on `child_id` and `limit=3`, and joins the formatted
hits with newlines. -/
def MemoryManager.search_memory (m : MemoryManager) (env : Env) (db : QdrantDB)
    (child_id query_text : String) : Except PyExc String :=
  match env.embed query_text with
  | .error e => .error e
  | .ok query_vector =>
    .ok (String.intercalate "\n"
      ((db.search m.collection_name query_vector child_id 3).map fmtHit))

/-- `MemoryManager.save_to_memory`: embeds the user text and upserts one point with a
fresh uuid, the child id, both texts, and the current UTC timestamp. -/
def MemoryManager.save_to_memory (m : MemoryManager) (env : Env) (db : QdrantDB)
    (child_id user_text ai_text : String) : Except PyExc QdrantDB :=
  match env.embed user_text with
  | .error e => .error e
  | .ok vector =>
    .ok (db.upsert m.collection_name
      ⟨env.uuid, vector, child_id, user_text, ai_text, env.now⟩)

/-- The module-level binding `from .memory import memory_manager` in `app/services.py`
line 11: it copies the value of `app/memory.py`s `memory_manager`, which is `None`
when the module loads (`memory.py` line 12), and the copy is never re-read after
`initialize_memory_manager` rebinds the original. -/
def services_memory_manager : Option MemoryManager := none

/-- `transcribe_audio` in `app/services.py`: calls the Whisper transcription
capability and re-raises any exception as `AIServiceError`. -/
def transcribe_audio (env : Env) (audio_file : Bytes) : Except PyExc String :=
  match env.transcribe audio_file with
  | .ok t => .ok t
  | .error e => .error (.aiService ("Failed to transcribe audio: " ++ e.message))

/-- The prompt f-string of `get_gemini_response`, embedding the persona block, the
recalled history and the new user utterance verbatim. -/
def build_prompt (relevant_memories user_text : String) : String :=
  "\n        You are \x27Abenek\x27, a friendly, curious, and safe blue robot companion for a child.\n" ++
  "        Your personality is warm, encouraging, and a little bit playful.\n" ++
  "        Always respond in clear and simple Persian. Your goal is to spark imagination and learning.\n" ++
  "        \n" ++
  "        Here is some of your past conversation history with this child:\n" ++
  "        ---\n" ++
  "        " ++ relevant_memories ++ "\n" ++
  "        ---\n" ++
  "        \n" ++
  "        Now, continue the conversation. The child just said: \x27" ++ user_text ++ "\x27\n" ++
  "        Your response in Persian:\n        "

/-- The message of the `AttributeError` raised when `memory_manager` is `None` and
`search_memory` is accessed on it. -/
def attrErrMsg : String :=
  "AttributeError: \x27NoneType\x27 object has no attribute \x27search_memory\x27"

/-- The try-block of `get_gemini_response` in `app/services.py`: recall via
`memory_manager` (the module binding, which raises `AttributeError` when it is still
`None`), prompt construction, generation, and persistence via `save_to_memory`; each
statement aborts the rest when it raises. -/
def get_gemini_try (mm : Option MemoryManager) (env : Env) (db : QdrantDB)
    (user_text child_id : String) : Except PyExc (String × QdrantDB) :=
  match mm with
  | none => .error (.other attrErrMsg)
  | some m =>
    match m.search_memory env db child_id user_text with
    | .error e => .error e
    | .ok relevant_memories =>
      match env.generate (build_prompt relevant_memories user_text) with
      | .error e => .error e
      | .ok ai_text =>
        match m.save_to_memory env db child_id user_text ai_text with
        | .error e => .error e
        | .ok db2 => .ok (ai_text, db2)

/-- The except-clauses of `get_gemini_response`, wrapping the try-block above: a
`GoogleAPICallError` and every other exception are both re-raised as
`AIServiceError`, and the store is unchanged on every exception path. -/
def get_gemini_response (mm : Option MemoryManager) (env : Env) (db : QdrantDB)
    (user_text child_id : String) : Except PyExc String × QdrantDB :=
  match get_gemini_try mm env db user_text child_id with
  | .ok (t, db2) => (.ok t, db2)
  | .error (.googleAPICall msg) =>
    (.error (.aiService ("Google Generative AI failed: " ++ msg)), db)
  | .error e =>
    (.error (.aiService
      ("An unexpected error occurred in Gemini response generation: " ++ e.message)), db)

/-- Modelled from the spec: `convert_text_to_speech_elevenlabs` is imported and called
by `app/routers/conversation.py` but its definition is absent from the sources under
`src/`. The spec specifies the synthesis capability as `Synthesize(text) ->
audioBytes`, failing with `ServiceFailure` on any transport or API error, which the
pipeline observes as `AIServiceError`. -/
def convert_text_to_speech_elevenlabs (env : Env) (text : String) :
    Except PyExc Bytes :=
  match env.synthesize text with
  | .ok b => .ok b
  | .error e => .error (.aiService ("Failed to synthesize speech: " ++ e.message))

/-- The settings field the conversation endpoint reads. -/
structure Settings where
  doll_master_auth_token : String
deriving DecidableEq, Repr

/-- What the `talk` endpoint returns to the device: a streamed audio body with a media
type, or a raised `HTTPException` with a status code and detail. -/
inductive TalkResult where
  | audioResponse (bytes : Bytes) (media_type : String)
  | httpError (status_code : Nat) (detail : String)
deriving DecidableEq, Repr

/-- The body of the try-block of `talk`: transcription, then `get_gemini_response`,
then speech synthesis, each statement aborting the rest on an exception. -/
def run_pipeline (env : Env) (mm : Option MemoryManager) (db : QdrantDB)
    (child_id : String) (audio_file : Bytes) : Except PyExc Bytes × QdrantDB :=
  match transcribe_audio env audio_file with
  | .error e => (.error e, db)
  | .ok transcribed_text =>
    match get_gemini_response mm env db transcribed_text child_id with
    | (.error e, db2) => (.error e, db2)
    | (.ok ai_response_text, db2) =>
      match convert_text_to_speech_elevenlabs env ai_response_text with
      | .error e => (.error e, db2)
      | .ok response_audio_bytes => (.ok response_audio_bytes, db2)

/-- The `/conversation/talk` endpoint of `app/routers/conversation.py`: exact-match
token check raising 401 before the try-block, then the pipeline; an `AIServiceError`
is answered with a 503 `HTTPException` carrying the message, any other exception with
a 500 `HTTPException`, and success streams the bytes as `audio/mpeg`. -/
def talk (env : Env) (mm : Option MemoryManager) (db : QdrantDB) (settings : Settings)
    (x_auth_token child_id : String) (audio_file : Bytes) : TalkResult × QdrantDB :=
  if x_auth_token ≠ settings.doll_master_auth_token then
    (.httpError 401 "Invalid authentication token.", db)
  else
    match run_pipeline env mm db child_id audio_file with
    | (.ok bytes, db2) => (.audioResponse bytes "audio/mpeg", db2)
    | (.error (.aiService msg), db2) =>
      (.httpError 503 ("An AI service failed: " ++ msg), db2)
    | (.error _, db2) =>
      (.httpError 500 "A critical internal error occurred.", db2)

/-! ### Concrete fixtures used by witnesses and counterexamples -/

/-- The `MemoryManager` instance as `__init__` configures it. -/
def mmInstance : MemoryManager := ⟨theCollection⟩

/-- A fresh Qdrant state holding the initialized collection and index and no points. -/
def dbReady : QdrantDB :=
  ⟨[⟨theCollection, 1536, .cosine⟩], [(theCollection, "child_id")], []⟩

/-- Concrete settings with a known master token. -/
def settings0 : Settings := ⟨"secret-token"⟩

/-- A request environment in which every capability succeeds. -/
def envOk : Env :=
  { transcribe := fun _ => .ok "Hello"
    embed := fun t => .ok [(t.length : Int)]
    generate := fun _ => .ok "Hi there"
    synthesize := fun _ => .ok [1, 2, 3]
    uuid := "uuid-1"
    now := "2026-01-01T00:00:00+00:00" }

/-- A request environment whose generation capability raises a
`GoogleAPICallError`. -/
def envGenFail : Env :=
  { envOk with generate := fun _ => .error (.googleAPICall "quota exceeded") }

/-- Three stored points: two for child `c1`, one for child `c2`. -/
def pA : QPoint := ⟨"idA", [2], "c1", "likes cats", "meow", "t1"⟩

/-- Second stored point of child `c1`, more similar to positive queries than `pA`. -/
def pB : QPoint := ⟨"idB", [5], "c1", "likes dogs", "woof", "t2"⟩

/-- A stored point of the other child `c2`. -/
def pC : QPoint := ⟨"idC", [9], "c2", "likes fish", "blub", "t3"⟩

/-- A populated Qdrant state with turns of two different children. -/
def dbSample : QdrantDB :=
  ⟨[⟨theCollection, 1536, .cosine⟩], [(theCollection, "child_id")],
    [(theCollection, pA), (theCollection, pB), (theCollection, pC)]⟩

/-! ### Claims -/

/-- C5: a request whose supplied token differs from the configured master token under
exact string comparison terminates immediately with the 401 Unauthorized result and
an unchanged store, and its outcome is independent of every external capability, of
the memory-manager binding and of the audio: no transcription, recall, generation,
persistence, or synthesis capability is consulted. -/
theorem talk_auth_mismatch_short_circuits
    (env env2 : Env) (mm mm2 : Option MemoryManager) (db : QdrantDB) (s : Settings)
    (tok c : String) (a a2 : Bytes) (h : tok ≠ s.doll_master_auth_token) :
    talk env mm db s tok c a = (.httpError 401 "Invalid authentication token.", db) ∧
    talk env mm db s tok c a = talk env2 mm2 db s tok c a2 := by
  constructor <;> simp [talk, h]

/-- Witness for C5 at a concrete mismatching token. -/
theorem talk_auth_mismatch_short_circuits_witness :
    talk envOk (some mmInstance) dbReady settings0 "bad-token" "c1" [0] =
      (.httpError 401 "Invalid authentication token.", dbReady) :=
  (talk_auth_mismatch_short_circuits envOk envOk (some mmInstance) (some mmInstance)
    dbReady settings0 "bad-token" "c1" [0] [0] (by decide)).1

/-- C9: every exception raised inside `get_gemini_response` is re-raised as
`AIServiceError` — the step either succeeds or fails with `AIServiceError`, never any
other exception class, so the 500 internal-error classification of the endpoint is
unreachable for faults arising inside this step; moreover with the module-level
binding of `app/services.py` (still `None`), the step fails with the `AttributeError`
wrapped as `AIServiceError` and leaves the store unchanged. -/
theorem get_gemini_response_only_aiService
    (mm : Option MemoryManager) (env : Env) (db : QdrantDB) (u c : String) :
    ((∃ t, (get_gemini_response mm env db u c).1 = .ok t) ∨
      (∃ m, (get_gemini_response mm env db u c).1 = .error (.aiService m))) ∧
    get_gemini_response services_memory_manager env db u c =
      (.error (.aiService
        ("An unexpected error occurred in Gemini response generation: " ++ attrErrMsg)),
        db) ∧
    (∀ (s : Settings) (a : Bytes),
      env.transcribe a = .ok u →
      talk env services_memory_manager db s s.doll_master_auth_token c a =
        (.httpError 503 ("An AI service failed: " ++
          ("An unexpected error occurred in Gemini response generation: " ++
            attrErrMsg)), db)) := by
  refine ⟨?_, rfl, ?_⟩
  · cases h : get_gemini_try mm env db u c with
    | ok p =>
      obtain ⟨t, db2⟩ := p
      exact Or.inl ⟨t, by simp [get_gemini_response, h]⟩
    | error e =>
      refine Or.inr ?_
      cases e with
      | aiService m =>
        exact ⟨"An unexpected error occurred in Gemini response generation: " ++ m,
          by simp [get_gemini_response, h, PyExc.message]⟩
      | googleAPICall m =>
        exact ⟨"Google Generative AI failed: " ++ m,
          by simp [get_gemini_response, h]⟩
      | other m =>
        exact ⟨"An unexpected error occurred in Gemini response generation: " ++ m,
          by simp [get_gemini_response, h, PyExc.message]⟩
  · intro s a htr
    simp [talk, run_pipeline, transcribe_audio, htr, get_gemini_response,
      get_gemini_try, services_memory_manager, attrErrMsg, PyExc.message]

/-- Witness for C9: with the all-success capability environment but the `None`
module binding of `app/services.py`, the request surfaces as a 503 service failure
(never a 500) with the wrapped `AttributeError` message. -/
theorem get_gemini_response_only_aiService_witness :
    talk envOk services_memory_manager dbReady settings0
        settings0.doll_master_auth_token "c1" [0] =
      (.httpError 503 ("An AI service failed: " ++
        ("An unexpected error occurred in Gemini response generation: " ++
          attrErrMsg)), dbReady) :=
  (get_gemini_response_only_aiService services_memory_manager envOk dbReady "Hello"
    "c1").2.2 settings0 [0] rfl

/-- C1 counterexample: on a concrete request whose generation capability raises a
service failure, the endpoint answers with the structured 503 `HTTPException`
carrying the error message — it does not synthesize a fixed apology message and does
not return playable audio. -/
theorem talk_service_failure_no_apology_audio :
    talk envGenFail (some mmInstance) dbReady settings0 "secret-token" "c1" [0] =
      (.httpError 503 "An AI service failed: Google Generative AI failed: quota exceeded",
        dbReady) := by
  rfl

/-- C1 (amended): when a pipeline step raises a service failure (`AIServiceError`),
the endpoint returns a structured non-audio error with service-unavailable status 503
carrying the message — no apology audio is synthesized — and when the pipeline raises
any exception not classified as `AIServiceError`, it returns a structured non-audio
error with internal-error status 500. -/
theorem talk_failure_classification
    (env : Env) (mm : Option MemoryManager) (db db2 : QdrantDB) (s : Settings)
    (c : String) (a : Bytes) :
    (∀ m, run_pipeline env mm db c a = (.error (.aiService m), db2) →
      talk env mm db s s.doll_master_auth_token c a =
        (.httpError 503 ("An AI service failed: " ++ m), db2)) ∧
    (∀ m,
      run_pipeline env mm db c a = (.error (.googleAPICall m), db2) ∨
        run_pipeline env mm db c a = (.error (.other m), db2) →
      talk env mm db s s.doll_master_auth_token c a =
        (.httpError 500 "A critical internal error occurred.", db2)) := by
  constructor
  · intro m h
    simp [talk, h]
  · rintro m (h | h) <;> simp [talk, h]

/-- Witness for the amended C1 at a concrete failing generation capability. -/
theorem talk_failure_classification_witness :
    talk envGenFail (some mmInstance) dbReady settings0
        settings0.doll_master_auth_token "c1" [0] =
      (.httpError 503 "An AI service failed: Google Generative AI failed: quota exceeded",
        dbReady) :=
  (talk_failure_classification envGenFail (some mmInstance) dbReady dbReady settings0
    "c1" [0]).1 "Google Generative AI failed: quota exceeded" rfl

/-- C3: persistence happens only after generation succeeds — when the generative
capability fails on every prompt, `get_gemini_response` leaves the store unchanged,
so no `MemoryRecord` is created for that turn; and conversely, whenever the store
changed, the generation capability returned successfully on some prompt. -/
theorem remember_only_after_generation
    (mm : Option MemoryManager) (env : Env) (db : QdrantDB) (u c : String) :
    ((∃ e, env.generate = fun _ => .error e) →
      (get_gemini_response mm env db u c).2 = db) ∧
    ((get_gemini_response mm env db u c).2 ≠ db →
      ∃ p r, env.generate p = .ok r) := by
  constructor
  · rintro ⟨e, hg⟩
    cases mm with
    | none => rfl
    | some m =>
      cases hs : m.search_memory env db c u with
      | error e2 =>
        cases e2 <;>
          simp [get_gemini_response, get_gemini_try, hs]
      | ok mem =>
        cases e <;>
          simp [get_gemini_response, get_gemini_try, hs, hg]
  · intro hne
    cases mm with
    | none => exact absurd rfl hne
    | some m =>
      cases hs : m.search_memory env db c u with
      | error e2 =>
        exact absurd
          (by cases e2 <;> simp [get_gemini_response, get_gemini_try, hs]) hne
      | ok mem =>
        cases hg : env.generate (build_prompt mem u) with
        | error e2 =>
          exact absurd
            (by cases e2 <;> simp [get_gemini_response, get_gemini_try, hs, hg]) hne
        | ok r => exact ⟨_, r, hg⟩

/-- Witness for C3: with the concrete failing generation environment, the store after
the step equals the store before it. -/
theorem remember_only_after_generation_witness :
    (get_gemini_response (some mmInstance) envGenFail dbSample "Hello" "c1").2 =
      dbSample :=
  (remember_only_after_generation (some mmInstance) envGenFail dbSample "Hello"
    "c1").1 ⟨.googleAPICall "quota exceeded", rfl⟩

/-- C2: with a valid token, a transcription yielding `t`, and recall, generation,
persistence and synthesis all succeeding, `talk` returns the synthesized bytes as an
`audio/mpeg` audio response and the store afterwards contains a new `MemoryRecord` in
the collection whose `child_id` is the requested child and whose `user_text` is `t`. -/
theorem talk_success_path
    (env : Env) (db : QdrantDB) (s : Settings) (c t reply : String) (a bytes : Bytes)
    (ef : String → Vec)
    (htr : env.transcribe a = .ok t)
    (hem : env.embed = fun q => .ok (ef q))
    (hg : env.generate = fun _ => .ok reply)
    (hsy : env.synthesize = fun _ => .ok bytes) :
    ∃ p : QPoint,
      (talk env (some mmInstance) db s s.doll_master_auth_token c a).1 =
        .audioResponse bytes "audio/mpeg" ∧
      (theCollection, p) ∈
        (talk env (some mmInstance) db s s.doll_master_auth_token c a).2.points ∧
      p.child_id = c ∧ p.user_text = t := by
  refine ⟨⟨env.uuid, ef t, c, t, reply, env.now⟩, ?_, ?_, rfl, rfl⟩ <;>
    simp [talk, run_pipeline, transcribe_audio, get_gemini_response, get_gemini_try,
      MemoryManager.search_memory, MemoryManager.save_to_memory,
      convert_text_to_speech_elevenlabs, QdrantDB.upsert, mmInstance, theCollection,
      htr, hem, hg, hsy]

/-- Witness for C2 at the concrete all-success environment and an empty store. -/
theorem talk_success_path_witness :
    ∃ p : QPoint,
      (talk envOk (some mmInstance) dbReady settings0
          settings0.doll_master_auth_token "c1" [7, 7]).1 =
        .audioResponse [1, 2, 3] "audio/mpeg" ∧
      (theCollection, p) ∈
        (talk envOk (some mmInstance) dbReady settings0
            settings0.doll_master_auth_token "c1" [7, 7]).2.points ∧
      p.child_id = "c1" ∧ p.user_text = "Hello" :=
  talk_success_path envOk dbReady settings0 "c1" "Hello" "Hi there" [7, 7] [1, 2, 3]
    (fun q => [(q.length : Int)]) rfl rfl rfl rfl

/-- C10: the pipeline performs no emptiness or whitespace check on the transcription
result — an empty transcription is forwarded unchanged: it is embedded as the recall
query, included verbatim in prompt construction, handed to the generation capability
as that exact prompt, its reply synthesized and streamed, and the empty text is
persisted as the `user_text` of the new record; the request never short-circuits to a
failure path. -/
theorem empty_transcription_flows_through
    (env : Env) (db : QdrantDB) (s : Settings) (c : String) (a : Bytes)
    (ef : String → Vec) (gf : String → String) (sf : String → Bytes)
    (htr : env.transcribe a = .ok "")
    (hem : env.embed = fun q => .ok (ef q))
    (hg : env.generate = fun p => .ok (gf p))
    (hsy : env.synthesize = fun r => .ok (sf r)) :
    (talk env (some mmInstance) db s s.doll_master_auth_token c a).1 =
      .audioResponse
        (sf (gf (build_prompt
          (String.intercalate "\n" ((db.search theCollection (ef "") c 3).map fmtHit))
          "")))
        "audio/mpeg" ∧
    ∃ p : QPoint,
      (theCollection, p) ∈
        (talk env (some mmInstance) db s s.doll_master_auth_token c a).2.points ∧
      p.user_text = "" ∧ p.child_id = c := by
  constructor
  · simp [talk, run_pipeline, transcribe_audio, get_gemini_response, get_gemini_try,
      MemoryManager.search_memory, MemoryManager.save_to_memory,
      convert_text_to_speech_elevenlabs, QdrantDB.upsert, mmInstance, theCollection,
      htr, hem, hg, hsy]
  · refine ⟨⟨env.uuid, ef "",  c, "",
      gf (build_prompt
        (String.intercalate "\n" ((db.search theCollection (ef "") c 3).map fmtHit))
        ""), env.now⟩, ?_, rfl, rfl⟩
    simp [talk, run_pipeline, transcribe_audio, get_gemini_response, get_gemini_try,
      MemoryManager.search_memory, MemoryManager.save_to_memory,
      convert_text_to_speech_elevenlabs, QdrantDB.upsert, mmInstance, theCollection,
      htr, hem, hg, hsy]

/-- Witness for C10 at a concrete environment whose transcription yields the empty
string and every later capability succeeds. -/
theorem empty_transcription_flows_through_witness :
    (talk { envOk with transcribe := fun _ => .ok "" } (some mmInstance) dbSample
        settings0 settings0.doll_master_auth_token "c1" [0]).1 =
      .audioResponse [1, 2, 3] "audio/mpeg" ∧
    ∃ p : QPoint,
      (theCollection, p) ∈
        (talk { envOk with transcribe := fun _ => .ok "" } (some mmInstance) dbSample
            settings0 settings0.doll_master_auth_token "c1" [0]).2.points ∧
      p.user_text = "" ∧ p.child_id = "c1" :=
  empty_transcription_flows_through { envOk with transcribe := fun _ => .ok "" }
    dbSample settings0 "c1" [0]
    (fun q => [(q.length : Int)]) (fun _ => "Hi there") (fun _ => [1, 2, 3])
    rfl rfl rfl rfl

/-- C4: the similarity query always carries the mandatory equality filter on
`child_id`, so over every store (hence after every sequence of remember calls by any
set of children) every hit the search returns belongs to the queried child,
regardless of semantic similarity; `search_memory` issues exactly this query with the
collection of the manager and limit 3. -/
theorem search_only_queried_child (db : QdrantDB) (cn : String) (qv : Vec)
    (child : String) (limit : Nat) :
    ((db.search cn qv child limit).all (fun p => p.child_id == child)) = true := by
  rw [List.all_eq_true]
  intro p hp
  have h1 : p ∈ List.insertionSort (rankRel qv)
      ((db.points.filter (fun pr => pr.1 == cn && pr.2.child_id == child)).map
        Prod.snd) :=
    List.take_subset _ _ hp
  have h2 := (List.perm_insertionSort (rankRel qv) _).mem_iff.mp h1
  obtain ⟨pr, hpr, hpp⟩ := List.mem_map.mp h2
  have h3 := (List.mem_filter.mp hpr).2
  rw [← hpp]
  exact ((Bool.and_eq_true _ _).mp h3).2

/-- C6: `recall` retrieves at most the top 3 matches ranked by descending similarity
to the embedded query, and formats them as the transcript of
child-said/AI-responded pairs in that retrieval order. -/
theorem recall_top3_ranked_formatted
    (m : MemoryManager) (env : Env) (db : QdrantDB) (child q : String) (qv : Vec)
    (h : env.embed q = .ok qv) :
    (db.search m.collection_name qv child 3).length ≤ 3 ∧
    List.Sorted (rankRel qv) (db.search m.collection_name qv child 3) ∧
    m.search_memory env db child q =
      .ok (String.intercalate "\n"
        ((db.search m.collection_name qv child 3).map fmtHit)) := by
  refine ⟨?_, ?_, ?_⟩
  · simp [QdrantDB.search]
  · exact List.Pairwise.sublist (List.take_sublist _ _)
      (List.sorted_insertionSort (rankRel qv) _)
  · simp [MemoryManager.search_memory, h]

/-- Witness for C6 on a populated store: child `c1` has two records, a third record
belongs to `c2`, and the query vector ranks `pB` above `pA`. -/
theorem recall_top3_ranked_formatted_witness :
    (dbSample.search mmInstance.collection_name [(4 : Int)] "c1" 3).length ≤ 3 ∧
    List.Sorted (rankRel [(4 : Int)])
      (dbSample.search mmInstance.collection_name [(4 : Int)] "c1" 3) ∧
    mmInstance.search_memory envOk dbSample "c1" "dogs" =
      .ok (String.intercalate "\n"
        ((dbSample.search mmInstance.collection_name [(4 : Int)] "c1" 3).map fmtHit)) :=
  recall_top3_ranked_formatted mmInstance envOk dbSample "c1" "dogs" [(4 : Int)] rfl

/-- C7: when the store holds no record matching the child (in particular before any
remember call for that child), `recall` returns the empty string and does not raise. -/
theorem recall_empty_when_no_matches
    (m : MemoryManager) (env : Env) (db : QdrantDB) (child q : String) (qv : Vec)
    (h : env.embed q = .ok qv)
    (hnone : db.points.filter
        (fun pr => pr.1 == m.collection_name && pr.2.child_id == child) = []) :
    m.search_memory env db child q = .ok "" := by
  simp [MemoryManager.search_memory, QdrantDB.search, h, hnone, String.intercalate]

/-- Witness for C7: a child with no records, on a store already holding other
children. -/
theorem recall_empty_when_no_matches_witness :
    mmInstance.search_memory envOk dbSample "c3" "anything" = .ok "" :=
  recall_empty_when_no_matches mmInstance envOk dbSample "c3" "anything"
    [(8 : Int)] rfl rfl

/-- C8: collection and index initialization is idempotent — starting from a server
without the collection or its index, the first run creates exactly one collection
(dimension 1536, cosine metric) and exactly one `child_id` index, and a second run
succeeds and changes nothing. `ensure_collection_exists` performs no cooperative
suspension between the existence check and the creations (it is a synchronous method
with no await), so under the asyncio execution model two concurrent first uses
execute one after the other, and both serializations are the double run proved
here. -/
theorem ensure_collection_idempotent
    (m : MemoryManager) (db : QdrantDB)
    (hc : m.collection_name ∉ db.collectionNames)
    (hi : (m.collection_name, "child_id") ∉ db.indexes) :
    ∃ db1,
      m.ensure_collection_exists db = .ok db1 ∧
      m.ensure_collection_exists db1 = .ok db1 ∧
      db1.collections.filter (fun ci => ci.name == m.collection_name) =
        [⟨m.collection_name, 1536, .cosine⟩] ∧
      (db1.indexes.filter (fun ix => ix == (m.collection_name, "child_id"))).length
        = 1 := by
  have hfc : db.collections.filter (fun ci => ci.name == m.collection_name) = [] := by
    rw [List.filter_eq_nil_iff]
    intro ci hci hbe
    exact hc (List.mem_map.mpr ⟨ci, hci, by simpa using hbe⟩)
  have hfi : db.indexes.filter
      (fun ix => ix == (m.collection_name, "child_id")) = [] := by
    rw [List.filter_eq_nil_iff]
    intro ix hix hbe
    exact hi (by simpa using (beq_iff_eq.mp hbe ▸ hix))
  refine ⟨{ db with
      collections := db.collections ++ [⟨m.collection_name, 1536, .cosine⟩],
      indexes := db.indexes ++ [(m.collection_name, "child_id")] }, ?_, ?_, ?_, ?_⟩
  · simp [MemoryManager.ensure_collection_exists, QdrantDB.create_collection,
      QdrantDB.create_payload_index, hc, hi]
  · simp [MemoryManager.ensure_collection_exists, QdrantDB.collectionNames]
  · rw [List.filter_append, hfc]
    simp
  · rw [List.filter_append, hfi]
    simp

/-- Witness for C8 starting from an empty server state. -/
theorem ensure_collection_idempotent_witness :
    ∃ db1,
      mmInstance.ensure_collection_exists ⟨[], [], []⟩ = .ok db1 ∧
      mmInstance.ensure_collection_exists db1 = .ok db1 ∧
      db1.collections.filter (fun ci => ci.name == mmInstance.collection_name) =
        [⟨mmInstance.collection_name, 1536, .cosine⟩] ∧
      (db1.indexes.filter
        (fun ix => ix == (mmInstance.collection_name, "child_id"))).length = 1 :=
  ensure_collection_idempotent mmInstance ⟨[], [], []⟩
    (by simp [QdrantDB.collectionNames]) (by simp)

end Doll
